import Mathlib

/-!
Verification of the MonthlyPortfolioBot core against its specification.

The two core components are embedded shallowly:
* the retirement projection engine (src/retirement_tracker.py), a pure
  transform over a configuration and a current portfolio value;
* the snapshot store and period-change calculator (src/snapshot_service.py)
  together with the fallback chain of the analyzer
  (src/portfolio_analyzer.py).

Python floats are modelled by the rationals; the built-in round with
2 (or 1) digits is modelled by round-half-to-even on the exact rational
value.  A ZeroDivisionError raised by Python is modelled by an Except
error value; the S3 object store is modelled as a function from string
keys to optional stored JSON records; the Robinhood client is modelled
by its two observations the analyzer code uses: whether it is logged in
and which holdings-based historical record it returns per account/span.
-/

namespace PortfolioBot

/-- Round a rational to the nearest integer, ties to even, as Python
round does on exact values. -/
def roundHalfEven (q : ℚ) : ℤ :=
  let f : ℤ := ⌊q⌋
  let frac : ℚ := q - f
  if frac < 1/2 then f
  else if 1/2 < frac then f + 1
  else if f % 2 = 0 then f else f + 1

/-- Model of Python round(q, n): round half to even at n decimal digits. -/
def pyRound (n : ℕ) (q : ℚ) : ℚ :=
  (roundHalfEven (q * 10 ^ n) : ℚ) / 10 ^ n

/-- Model of Python round(q, 2). -/
def round2 (q : ℚ) : ℚ := pyRound 2 q

/-- Model of Python round(q, 1). -/
def round1 (q : ℚ) : ℚ := pyRound 1 q

/-! ## Retirement tracker (src/retirement_tracker.py) -/

/-- RetirementConfig dataclass fields (src/retirement_tracker.py lines
14-22). -/
structure RetirementConfig where
  target_amount : ℚ
  target_age : ℤ
  current_age : ℤ := 0
  monthly_contribution : ℚ := 0
  assumed_annual_return : ℚ := 7/100
  birth_year : Option ℤ := none
deriving DecidableEq

/-- RetirementConfig construction including __post_init__ (lines 24-29):
when birth_year is present, current_age is recomputed as the construction
time year minus birth_year, discarding any supplied current_age. -/
def mkRetirementConfig (now_year : ℤ) (target_amount : ℚ) (target_age current_age : ℤ)
    (monthly_contribution assumed_annual_return : ℚ) (birth_year : Option ℤ) :
    RetirementConfig :=
  let cfg : RetirementConfig :=
    { target_amount := target_amount, target_age := target_age, current_age := current_age,
      monthly_contribution := monthly_contribution,
      assumed_annual_return := assumed_annual_return, birth_year := birth_year }
  match birth_year with
  | some y => { cfg with current_age := now_year - y }
  | none => cfg

/-- RetirementProgress dataclass (lines 32-43). -/
structure RetirementProgress where
  current_value : ℚ
  target_amount : ℚ
  percent_complete : ℚ
  years_remaining : ℤ
  monthly_needed : ℚ
  on_track : Bool
  projected_value : ℚ
  surplus_or_deficit : ℚ
deriving DecidableEq

/-- RetirementTracker._project_future_value (lines 106-151).  The guard of
the annuity branch in the source is monthly_return > 0 AND
monthly_contribution > 0; otherwise the linear branch
monthly_contribution * months is taken. -/
def project_future_value (current monthly_contribution : ℚ) (years : ℤ)
    (annual_return : ℚ) : ℚ :=
  if years ≤ 0 then current
  else
    let months : ℕ := years.toNat * 12
    let monthly_return : ℚ := annual_return / 12
    let fv_current : ℚ := current * (1 + monthly_return) ^ months
    let fv_contributions : ℚ :=
      if 0 < monthly_return ∧ 0 < monthly_contribution then
        monthly_contribution * (((1 + monthly_return) ^ months - 1) / monthly_return)
      else
        monthly_contribution * (months : ℚ)
    fv_current + fv_contributions

/-- RetirementTracker._calculate_monthly_needed (lines 153-200). -/
def calculate_monthly_needed (current target : ℚ) (years : ℤ)
    (annual_return : ℚ) : ℚ :=
  if years ≤ 0 then max 0 (target - current)
  else
    let months : ℕ := years.toNat * 12
    let monthly_return : ℚ := annual_return / 12
    let fv_current : ℚ := current * (1 + monthly_return) ^ months
    let needed_from_contributions : ℚ := target - fv_current
    if needed_from_contributions ≤ 0 then 0
    else if 0 < monthly_return then
      needed_from_contributions * monthly_return / ((1 + monthly_return) ^ months - 1)
    else
      needed_from_contributions / (months : ℚ)

/-- The fault calculate_progress can raise: dividing by a zero
target_amount on source line 69 raises a Python ZeroDivisionError. -/
inductive ProgressError where
  | zeroDivisionError
deriving DecidableEq

/-- The years_remaining quantity of calculate_progress line 68:
max(0, target_age - current_age). -/
def yearsRemaining (cfg : RetirementConfig) : ℤ :=
  max 0 (cfg.target_age - cfg.current_age)

/-- RetirementTracker.calculate_progress (lines 58-104).  The percent
computation on line 69 divides by target_amount before anything else, so
a zero target surfaces a ZeroDivisionError; all monetary outputs are
rounded at the return boundary (lines 95-104), percent_complete to one
digit and the others to two. -/
def calculate_progress (cfg : RetirementConfig) (current_portfolio_value : ℚ) :
    Except ProgressError RetirementProgress :=
  let years_remaining := yearsRemaining cfg
  if cfg.target_amount = 0 then .error .zeroDivisionError
  else
    let percent_complete := current_portfolio_value / cfg.target_amount * 100
    let projected_value := project_future_value current_portfolio_value
      cfg.monthly_contribution years_remaining cfg.assumed_annual_return
    let monthly_needed := calculate_monthly_needed current_portfolio_value
      cfg.target_amount years_remaining cfg.assumed_annual_return
    let on_track : Bool := decide (cfg.target_amount ≤ projected_value)
    let surplus_or_deficit := projected_value - cfg.target_amount
    .ok
      { current_value := round2 current_portfolio_value
        target_amount := round2 cfg.target_amount
        percent_complete := round1 percent_complete
        years_remaining := years_remaining
        monthly_needed := round2 (max 0 monthly_needed)
        on_track := on_track
        projected_value := round2 projected_value
        surplus_or_deficit := round2 surplus_or_deficit }

/-! ## Snapshot service (src/snapshot_service.py) -/

/-- PortfolioSnapshot (src/snapshot_service.py lines 23-30). -/
structure PortfolioSnapshot where
  account_number : String
  timestamp : String
  equity : ℚ
  cash : ℚ
deriving DecidableEq

/-- The JSON dictionary shape produced by PortfolioSnapshot.to_dict and
consumed by PortfolioSnapshot.from_dict: the four keys account_number,
timestamp, equity, cash. -/
structure SnapshotDict where
  account_number : String
  timestamp : String
  equity : ℚ
  cash : ℚ
deriving DecidableEq

/-- PortfolioSnapshot.to_dict (lines 32-39). -/
def PortfolioSnapshot.to_dict (s : PortfolioSnapshot) : SnapshotDict :=
  { account_number := s.account_number, timestamp := s.timestamp,
    equity := s.equity, cash := s.cash }

/-- PortfolioSnapshot.from_dict (lines 41-49).  The float coercions on the
equity and cash entries are identities in the rational model. -/
def PortfolioSnapshot.from_dict (d : SnapshotDict) : PortfolioSnapshot :=
  { account_number := d.account_number, timestamp := d.timestamp,
    equity := d.equity, cash := d.cash }

/-- A calendar date, the part of a Python date/datetime the snapshot
service observes. -/
structure Date where
  year : ℕ
  month : ℕ
  day : ℕ
deriving DecidableEq

/-- Zero-padded two-digit rendering used by strftime for month and day. -/
def pad2 (n : ℕ) : String :=
  if n < 10 then "0" ++ toString n else toString n

/-- strftime of a date in the %Y-%m-%d format. -/
def Date.toStr (d : Date) : String :=
  toString d.year ++ "-" ++ pad2 d.month ++ "-" ++ pad2 d.day

/-- A Python datetime as the snapshot service observes it: its date part
(strftime %Y-%m-%d) and its clock part, used only through isoformat. -/
structure Datetime where
  date : Date
  clock : String
deriving DecidableEq

/-- datetime.isoformat(): the date followed by T and the clock part. -/
def Datetime.isoformat (t : Datetime) : String :=
  t.date.toStr ++ "T" ++ t.clock

/-- The S3 bucket contents: a map from object keys to the stored snapshot
JSON documents.  put_object overwrites the key; get_object returns the
stored document or signals NoSuchKey, modelled by Option. -/
def S3Store : Type := String → Option SnapshotDict

/-- The object key of snapshot_service.py line 94:
portfolio-snapshots/account-{account_number}/{date}.json. -/
def snapshotKey (account_number : String) (date_str : String) : String :=
  "portfolio-snapshots/account-" ++ account_number ++ "/" ++ date_str ++ ".json"

/-- SnapshotService.save_snapshot (lines 66-112): builds the snapshot with
the isoformat timestamp, keys it by the timestamp date, and overwrites
that key in the store.  The Python function also returns a success
boolean, which is True whenever the storage write goes through; the
returned pair carries the updated bucket contents and that boolean. -/
def save_snapshot (store : S3Store) (account_number : String) (equity cash : ℚ)
    (timestamp : Datetime) : S3Store × Bool :=
  let snapshot : PortfolioSnapshot :=
    { account_number := account_number, timestamp := timestamp.isoformat,
      equity := equity, cash := cash }
  let date_str := timestamp.date.toStr
  let key := snapshotKey account_number date_str
  (fun k => if k = key then some snapshot.to_dict else store k, true)

/-- SnapshotService.get_snapshot (lines 114-145): exact-date lookup; a
missing key (NoSuchKey) or any storage error yields None. -/
def get_snapshot (store : S3Store) (account_number : String) (snapshot_date : Date) :
    Option PortfolioSnapshot :=
  let key := snapshotKey account_number snapshot_date.toStr
  match store key with
  | some d => some (PortfolioSnapshot.from_dict d)
  | none => none

/-- The period-change dictionary returned by calculate_period_change
(lines 218-223). -/
structure PeriodChange where
  change_dollars : ℚ
  change_percent : ℚ
  start_equity : ℚ
  end_equity : ℚ
deriving DecidableEq

/-- SnapshotService.calculate_period_change (lines 183-223).  The today
parameter stands for date.today(), used when end_date is absent.  Division
by the start equity is guarded by the positivity test on line 213, so no
division error can occur. -/
def calculate_period_change (store : S3Store) (today : Date) (account_number : String)
    (start_date : Date) (end_date : Option Date) : Option PeriodChange :=
  let end_d := end_date.getD today
  match get_snapshot store account_number start_date, get_snapshot store account_number end_d with
  | some s, some e =>
      let change_dollars := e.equity - s.equity
      let change_percent := if 0 < s.equity then change_dollars / s.equity * 100 else 0
      some { change_dollars := change_dollars, change_percent := change_percent,
             start_equity := s.equity, end_equity := e.equity }
  | _, _ => none

/-! ## Portfolio analyzer period-change fallback (src/portfolio_analyzer.py) -/

/-- The dollars/percent dictionary the analyzer period-change helpers
return. -/
structure PeriodDelta where
  dollars : ℚ
  percent : ℚ
deriving DecidableEq

/-- The change fields of the holdings-based historical record returned by
RobinhoodClient.get_historical_portfolio_for_account (src/robinhood_client.py
lines 670-677). -/
structure HistoricalData where
  change_dollars : ℚ
  change_percent : ℚ
deriving DecidableEq

/-- The Robinhood client as the analyzer fallback observes it: whether it
is logged in, and which holdings-based record it produces for an account
and span (None when the holdings computation finds nothing; any exception
inside the computation is caught there and also yields None). -/
structure RClient where
  logged_in : Bool
  historical : String → String → Option HistoricalData

/-- The Python exception that can escape the holdings tier. -/
inductive PyError where
  | runtimeNotLoggedIn
deriving DecidableEq

/-- RobinhoodClient.get_historical_portfolio_for_account (src/robinhood_client.py
lines 632-681): _ensure_logged_in raises RuntimeError before the try
block, so that exception escapes; everything inside the try is caught and
degraded to None. -/
def get_historical_portfolio_for_account (client : RClient) (account_number span : String) :
    Except PyError (Option HistoricalData) :=
  if client.logged_in then .ok (client.historical account_number span)
  else .error .runtimeNotLoggedIn

/-- PortfolioAnalyzer._calculate_period_change_from_snapshots
(src/portfolio_analyzer.py lines 270-310): month starts at day 1 of the
current month, year at January 1; other spans return None; the snapshot
service call is wrapped in try/except, so this tier never raises. -/
def calculate_period_change_from_snapshots (snapshot_service : S3Store) (today : Date)
    (account_number span : String) : Option PeriodDelta :=
  let start_date? : Option Date :=
    if span = "month" then some { today with day := 1 }
    else if span = "year" then some { today with month := 1, day := 1 }
    else none
  match start_date? with
  | none => none
  | some start_date =>
    match calculate_period_change snapshot_service today account_number start_date (some today) with
    | some pc => some { dollars := pc.change_dollars, percent := pc.change_percent }
    | none => none

/-- PortfolioAnalyzer._calculate_period_change_for_account (lines
238-268): snapshot tier first when a snapshot service is configured, then
the holdings tier, then the zero fallback.  The holdings-tier client call
is not wrapped in any try/except here, so a RuntimeError from
_ensure_logged_in propagates to the caller. -/
def calculate_period_change_for_account (snapshot_service : Option S3Store)
    (client : RClient) (today : Date) (account_number span : String) :
    Except PyError PeriodDelta :=
  let tier1 : Option PeriodDelta :=
    match snapshot_service with
    | some svc => calculate_period_change_from_snapshots svc today account_number span
    | none => none
  match tier1 with
  | some d => .ok d
  | none =>
    match get_historical_portfolio_for_account client account_number span with
    | .error e => .error e
    | .ok (some h) => .ok { dollars := h.change_dollars, percent := h.change_percent }
    | .ok none => .ok { dollars := 0, percent := 0 }

/-! ## Witness fixtures -/

/-- A bucket holding two snapshots for account A1, on 2024-01-01 and
2024-02-01. -/
def storeW : S3Store := fun k =>
  if k = snapshotKey "A1" (Date.toStr ⟨2024, 1, 1⟩) then
    some { account_number := "A1", timestamp := "2024-01-01T00:00:00",
           equity := 10000, cash := 500 }
  else if k = snapshotKey "A1" (Date.toStr ⟨2024, 2, 1⟩) then
    some { account_number := "A1", timestamp := "2024-02-01T00:00:00",
           equity := 10500, cash := 600 }
  else none

/-- The snapshot stored in storeW for 2024-01-01. -/
def snapA : PortfolioSnapshot :=
  { account_number := "A1", timestamp := "2024-01-01T00:00:00", equity := 10000, cash := 500 }

/-- The snapshot stored in storeW for 2024-02-01. -/
def snapB : PortfolioSnapshot :=
  { account_number := "A1", timestamp := "2024-02-01T00:00:00", equity := 10500, cash := 600 }

/-- Morning write time used in the upsert witness. -/
def t1W : Datetime := ⟨⟨2024, 3, 5⟩, "08:00:00"⟩

/-- Evening write time used in the upsert witness. -/
def t2W : Datetime := ⟨⟨2024, 3, 5⟩, "20:30:00"⟩

/-! ## Claim theorems -/

/-- Claim C8: a RetirementConfig built with birth_year set gets
current_age = construction-time year - birth_year, overriding any supplied
current_age; without birth_year the supplied current_age is kept. -/
theorem c8_current_age_derivation (now_year : ℤ) (ta : ℚ) (tage cage : ℤ)
    (mc ar : ℚ) (y : ℤ) :
    (mkRetirementConfig now_year ta tage cage mc ar (some y)).current_age = now_year - y ∧
    (mkRetirementConfig now_year ta tage cage mc ar none).current_age = cage :=
  ⟨rfl, rfl⟩

/-- Claim C10: PortfolioSnapshot.from_dict inverts PortfolioSnapshot.to_dict,
so serialization round-trips all four fields. -/
theorem c10_snapshot_round_trip (s : PortfolioSnapshot) :
    PortfolioSnapshot.from_dict s.to_dict = s :=
  rfl

/-- Claim C5: two save_snapshot calls for the same (account, date) key
behave as a last-write-wins upsert: get_snapshot returns the snapshot of
the later save, and when the written values differ the earlier snapshot is
no longer retrievable. -/
theorem c5_last_write_wins (store : S3Store) (account : String) (e1 c1 e2 c2 : ℚ)
    (t1 t2 : Datetime) (d : Date) (_h1 : t1.date = d) (h2 : t2.date = d) :
    get_snapshot (save_snapshot (save_snapshot store account e1 c1 t1).1 account e2 c2 t2).1
        account d
      = some { account_number := account, timestamp := t2.isoformat,
               equity := e2, cash := c2 } ∧
    ((e2, c2) ≠ (e1, c1) →
      get_snapshot (save_snapshot (save_snapshot store account e1 c1 t1).1 account e2 c2 t2).1
          account d
        ≠ some { account_number := account, timestamp := t1.isoformat,
                 equity := e1, cash := c1 }) := by
  have hget :
      get_snapshot (save_snapshot (save_snapshot store account e1 c1 t1).1 account e2 c2 t2).1
          account d
        = some { account_number := account, timestamp := t2.isoformat,
                 equity := e2, cash := c2 } := by
    simp [get_snapshot, save_snapshot, snapshotKey, h2,
      PortfolioSnapshot.to_dict, PortfolioSnapshot.from_dict]
  refine ⟨hget, fun hne heq => hne ?_⟩
  rw [hget] at heq
  have := Option.some.inj heq
  simp only [PortfolioSnapshot.mk.injEq] at this
  exact Prod.ext this.2.2.1 this.2.2.2

/-- Witness for C5 at a concrete store, account and date. -/
theorem c5_witness :
    t1W.date = (⟨2024, 3, 5⟩ : Date) ∧ t2W.date = (⟨2024, 3, 5⟩ : Date) ∧
    (((10500 : ℚ), (600 : ℚ)) ≠ ((10000 : ℚ), (500 : ℚ))) ∧
    get_snapshot (save_snapshot (save_snapshot (fun _ => none) "A1" 10000 500 t1W).1
        "A1" 10500 600 t2W).1 "A1" ⟨2024, 3, 5⟩
      = some { account_number := "A1", timestamp := t2W.isoformat,
               equity := 10500, cash := 600 } ∧
    get_snapshot (save_snapshot (save_snapshot (fun _ => none) "A1" 10000 500 t1W).1
        "A1" 10500 600 t2W).1 "A1" ⟨2024, 3, 5⟩
      ≠ some { account_number := "A1", timestamp := t1W.isoformat,
               equity := 10000, cash := 500 } := by
  have h := c5_last_write_wins (fun _ => none) "A1" 10000 500 10500 600 t1W t2W
    ⟨2024, 3, 5⟩ rfl rfl
  exact ⟨rfl, rfl, by norm_num, h.1, h.2 (by norm_num)⟩

/-- Claim C4: calculate_period_change returns None exactly when the start
or end snapshot is absent; when both exist it returns the equity delta and
the guarded percent change, with no division fault possible. -/
theorem c4_period_change_contract (store : S3Store) (today : Date) (account : String)
    (sd ed : Date) :
    (calculate_period_change store today account sd (some ed) = none ↔
      (get_snapshot store account sd = none ∨ get_snapshot store account ed = none)) ∧
    (∀ s e, get_snapshot store account sd = some s → get_snapshot store account ed = some e →
      calculate_period_change store today account sd (some ed) =
        some { change_dollars := e.equity - s.equity,
               change_percent :=
                 if 0 < s.equity then (e.equity - s.equity) / s.equity * 100 else 0,
               start_equity := s.equity, end_equity := e.equity }) := by
  constructor
  · cases hs : get_snapshot store account sd <;>
      cases he : get_snapshot store account ed <;>
        simp [calculate_period_change, hs, he]
  · intro s e hs he
    simp [calculate_period_change, hs, he]

/-- Witness for C4 on the two-snapshot bucket storeW. -/
theorem c4_witness :
    get_snapshot storeW "A1" ⟨2024, 1, 1⟩ = some snapA ∧
    get_snapshot storeW "A1" ⟨2024, 2, 1⟩ = some snapB ∧
    calculate_period_change storeW ⟨2024, 2, 1⟩ "A1" ⟨2024, 1, 1⟩ (some ⟨2024, 2, 1⟩) =
      some { change_dollars := snapB.equity - snapA.equity,
             change_percent :=
               if 0 < snapA.equity then (snapB.equity - snapA.equity) / snapA.equity * 100
               else 0,
             start_equity := snapA.equity, end_equity := snapB.equity } := by
  have hs : get_snapshot storeW "A1" ⟨2024, 1, 1⟩ = some snapA := by
    simp [get_snapshot, storeW, snapA, PortfolioSnapshot.from_dict]
  have he : get_snapshot storeW "A1" ⟨2024, 2, 1⟩ = some snapB := by
    simp only [get_snapshot, storeW, snapshotKey]
    rw [if_neg (by decide)]
    rfl
  exact ⟨hs, he,
    (c4_period_change_contract storeW ⟨2024, 2, 1⟩ "A1" ⟨2024, 1, 1⟩ ⟨2024, 2, 1⟩).2
      snapA snapB hs he⟩

/-- Rounding to the nearest integer, ties to even, maps nonnegative
rationals to nonnegative integers. -/
lemma roundHalfEven_nonneg {q : ℚ} (h : 0 ≤ q) : 0 ≤ roundHalfEven q := by
  unfold roundHalfEven
  have hf : (0 : ℤ) ≤ ⌊q⌋ := Int.floor_nonneg.mpr h
  dsimp only
  split
  · exact hf
  · split
    · omega
    · split <;> omega

/-- pyRound maps nonnegative rationals to nonnegative rationals. -/
lemma pyRound_nonneg (n : ℕ) {q : ℚ} (h : 0 ≤ q) : 0 ≤ pyRound n q := by
  unfold pyRound
  apply div_nonneg
  · exact_mod_cast roundHalfEven_nonneg (by positivity)
  · positivity

/-- Unfolding of calculate_progress on a nonzero target: the returned
record, field by field. -/
lemma calculate_progress_ok (cfg : RetirementConfig) (v : ℚ)
    (ht : cfg.target_amount ≠ 0) :
    calculate_progress cfg v = .ok
      { current_value := round2 v
        target_amount := round2 cfg.target_amount
        percent_complete := round1 (v / cfg.target_amount * 100)
        years_remaining := yearsRemaining cfg
        monthly_needed := round2 (max 0 (calculate_monthly_needed v cfg.target_amount
          (yearsRemaining cfg) cfg.assumed_annual_return))
        on_track := decide (cfg.target_amount ≤ project_future_value v
          cfg.monthly_contribution (yearsRemaining cfg) cfg.assumed_annual_return)
        projected_value := round2 (project_future_value v cfg.monthly_contribution
          (yearsRemaining cfg) cfg.assumed_annual_return)
        surplus_or_deficit := round2 (project_future_value v cfg.monthly_contribution
          (yearsRemaining cfg) cfg.assumed_annual_return - cfg.target_amount) } := by
  simp only [calculate_progress]
  rw [if_neg ht]

/-- Claim C9: for any config with nonzero target the returned
monthly_needed is nonnegative: the raw value is clamped with max(0, _)
before the boundary rounding, and the rounding preserves the sign. -/
theorem c9_monthly_needed_nonneg (cfg : RetirementConfig) (v : ℚ)
    (ht : cfg.target_amount ≠ 0) :
    ∃ p, calculate_progress cfg v = .ok p ∧ 0 ≤ p.monthly_needed :=
  ⟨_, calculate_progress_ok cfg v ht, pyRound_nonneg 2 (le_max_left 0 _)⟩

/-- Witness for C9 with a negative assumed return and a current value
already above the target. -/
theorem c9_witness :
    ((1000 : ℚ) ≠ 0) ∧
    ∃ p, calculate_progress
        { target_amount := 1000, target_age := 40, current_age := 35,
          monthly_contribution := 0, assumed_annual_return := -(12 : ℚ)/100,
          birth_year := none } 5000 = .ok p ∧ 0 ≤ p.monthly_needed :=
  ⟨by norm_num,
    c9_monthly_needed_nonneg
      { target_amount := 1000, target_age := 40, current_age := 35,
        monthly_contribution := 0, assumed_annual_return := -(12 : ℚ)/100,
        birth_year := none } 5000 (by norm_num)⟩

/-- Counterexample to claim C1 as stated: with target_amount = -1000
(which is ≤ 0) calculate_progress does not fail at all, it returns a
normal result -- the source performs no target validation. -/
theorem c1_counterexample :
    ∃ p, calculate_progress
        { target_amount := -1000, target_age := 65, current_age := 35,
          monthly_contribution := 100, assumed_annual_return := 7/100,
          birth_year := none } 500 = .ok p :=
  ⟨_, calculate_progress_ok _ 500 (by norm_num)⟩

/-- Claim C1 amended: the source has no InvalidConfig validation; a zero
target_amount surfaces a ZeroDivisionError from the percent_complete
division (the only failure), while a negative target_amount produces a
normal result. -/
theorem c1_amended_target_behavior (cfg : RetirementConfig) (v : ℚ) :
    (cfg.target_amount = 0 → calculate_progress cfg v = .error .zeroDivisionError) ∧
    (cfg.target_amount < 0 → ∃ p, calculate_progress cfg v = .ok p) := by
  constructor
  · intro h
    simp only [calculate_progress]
    rw [if_pos h]
  · intro h
    exact ⟨_, calculate_progress_ok cfg v (ne_of_lt h)⟩

/-- Witness for the amended C1 at a zero and at a negative target. -/
theorem c1_witness :
    calculate_progress
        { target_amount := 0, target_age := 65, current_age := 35,
          monthly_contribution := 0, assumed_annual_return := 7/100,
          birth_year := none } 100 = .error .zeroDivisionError ∧
    ∃ p, calculate_progress
        { target_amount := -5, target_age := 65, current_age := 35,
          monthly_contribution := 0, assumed_annual_return := 7/100,
          birth_year := none } 100 = .ok p :=
  ⟨(c1_amended_target_behavior _ 100).1 rfl,
   (c1_amended_target_behavior _ 100).2 (by norm_num)⟩


/-- A config whose target age equals the current age (zero years
remaining). -/
def cfgAtAge : RetirementConfig :=
  { target_amount := 100, target_age := 65, current_age := 65,
    monthly_contribution := 0, assumed_annual_return := 7/100, birth_year := none }

/-- A config already past the target age (zero years remaining). -/
def cfgPastAge : RetirementConfig :=
  { target_amount := 100, target_age := 65, current_age := 70,
    monthly_contribution := 0, assumed_annual_return := 7/100, birth_year := none }

/-- A one-year config with zero assumed return and a positive
contribution. -/
def cfgLinear : RetirementConfig :=
  { target_amount := 1000, target_age := 31, current_age := 30,
    monthly_contribution := 100, assumed_annual_return := 0, birth_year := none }

/-- Counterexample to claim C3 as stated: with years_remaining = 0 and
current value 1/3 (a value with more than two decimal places) the
returned projected_value is the rounded 33/100, not 1/3 exactly, and the
returned monthly_needed is the rounded 9967/100, not 100 - 1/3. -/
theorem c3_counterexample :
    yearsRemaining cfgAtAge = 0 ∧
    ∃ p, calculate_progress cfgAtAge (1/3) = .ok p ∧
      p.projected_value ≠ 1/3 ∧
      p.monthly_needed ≠ max 0 ((100 : ℚ) - 1/3) := by
  have hy : yearsRemaining cfgAtAge = 0 := by decide
  refine ⟨hy, _, calculate_progress_ok _ _ (by norm_num [cfgAtAge]), ?_, ?_⟩
  · rw [hy]
    norm_num [project_future_value, round2, pyRound, roundHalfEven]
  · rw [hy]
    have hmax : max (0 : ℚ) (100 - 1/3) = 299/3 := by
      rw [max_eq_right] <;> norm_num
    norm_num [cfgAtAge, calculate_monthly_needed, hmax, round2, pyRound, roundHalfEven]

/-- Claim C3 amended: with years_remaining = 0 (and a nonzero target so
the call returns at all), the returned projected_value is current_value
rounded to two decimals and the returned monthly_needed is
max(0, target_amount - current_value) rounded to two decimals; the
unrounded projection and needed amount are exactly current_value and
max(0, target_amount - current_value). -/
theorem c3_amended_zero_years (cfg : RetirementConfig) (v : ℚ)
    (hy : yearsRemaining cfg = 0) (ht : cfg.target_amount ≠ 0) :
    project_future_value v cfg.monthly_contribution (yearsRemaining cfg)
        cfg.assumed_annual_return = v ∧
    calculate_monthly_needed v cfg.target_amount (yearsRemaining cfg)
        cfg.assumed_annual_return = max 0 (cfg.target_amount - v) ∧
    ∃ p, calculate_progress cfg v = .ok p ∧
      p.projected_value = round2 v ∧
      p.monthly_needed = round2 (max 0 (cfg.target_amount - v)) := by
  have h1 : project_future_value v cfg.monthly_contribution (yearsRemaining cfg)
      cfg.assumed_annual_return = v := by
    rw [hy]
    simp [project_future_value]
  have h2 : calculate_monthly_needed v cfg.target_amount (yearsRemaining cfg)
      cfg.assumed_annual_return = max 0 (cfg.target_amount - v) := by
    rw [hy]
    simp [calculate_monthly_needed]
  refine ⟨h1, h2, _, calculate_progress_ok cfg v ht, by rw [h1], ?_⟩
  rw [h2, ← max_assoc, max_self]

/-- Witness for the amended C3 at a config already past the target age. -/
theorem c3_witness :
    yearsRemaining cfgPastAge = 0 ∧
    (cfgPastAge.target_amount ≠ 0) ∧
    ∃ p, calculate_progress cfgPastAge 50 = .ok p ∧
      p.projected_value = round2 50 ∧
      p.monthly_needed = round2 (max 0 (cfgPastAge.target_amount - 50)) :=
  ⟨by decide, by norm_num [cfgPastAge],
    (c3_amended_zero_years cfgPastAge 50 (by decide) (by norm_num [cfgPastAge])).2.2⟩

/-- Claim C6: with a zero assumed annual return and a positive monthly
contribution, the projection computed inside calculate_progress is the
linear accumulation current + contribution * years * 12, and the returned
projected_value is that amount rounded at the boundary. -/
theorem c6_zero_return_linear (cfg : RetirementConfig) (v : ℚ)
    (h0 : cfg.assumed_annual_return = 0) (_hc : 0 < cfg.monthly_contribution)
    (hy : 0 < yearsRemaining cfg) :
    project_future_value v cfg.monthly_contribution (yearsRemaining cfg)
        cfg.assumed_annual_return
      = v + cfg.monthly_contribution * ((yearsRemaining cfg : ℚ) * 12) ∧
    (cfg.target_amount ≠ 0 → ∃ p, calculate_progress cfg v = .ok p ∧
      p.projected_value
        = round2 (v + cfg.monthly_contribution * ((yearsRemaining cfg : ℚ) * 12))) := by
  have hZ : ((yearsRemaining cfg).toNat : ℤ) = yearsRemaining cfg :=
    Int.toNat_of_nonneg hy.le
  have h1 : project_future_value v cfg.monthly_contribution (yearsRemaining cfg)
      cfg.assumed_annual_return
        = v + cfg.monthly_contribution * ((yearsRemaining cfg : ℚ) * 12) := by
    simp only [project_future_value]
    rw [if_neg (not_le.mpr hy), h0, ← hZ]
    push_cast
    ring_nf
    norm_num
    left
    omega
  exact ⟨h1, fun ht => ⟨_, calculate_progress_ok cfg v ht, by rw [h1]⟩⟩

/-- Witness for C6: one year at zero return with a 100 contribution. -/
theorem c6_witness :
    cfgLinear.assumed_annual_return = 0 ∧
    (0 < cfgLinear.monthly_contribution) ∧
    (0 < yearsRemaining cfgLinear) ∧
    project_future_value 250 cfgLinear.monthly_contribution (yearsRemaining cfgLinear)
        cfgLinear.assumed_annual_return
      = 250 + cfgLinear.monthly_contribution * ((yearsRemaining cfgLinear : ℚ) * 12) ∧
    ∃ p, calculate_progress cfgLinear 250 = .ok p ∧
      p.projected_value
        = round2 (250 + cfgLinear.monthly_contribution * ((yearsRemaining cfgLinear : ℚ) * 12)) :=
  ⟨rfl, by norm_num [cfgLinear], by decide,
    (c6_zero_return_linear cfgLinear 250 rfl (by norm_num [cfgLinear]) (by decide)).1,
    (c6_zero_return_linear cfgLinear 250 rfl (by norm_num [cfgLinear]) (by decide)).2
      (by norm_num [cfgLinear])⟩

/-- A one-year config with a negative assumed annual return and a
positive contribution. -/
def cfgNegReturn : RetirementConfig :=
  { target_amount := 1000, target_age := 31, current_age := 30,
    monthly_contribution := 100, assumed_annual_return := -(12:ℚ)/100, birth_year := none }

/-- A one-year config with a positive assumed annual return and a
positive contribution. -/
def cfgPosReturn : RetirementConfig :=
  { target_amount := 2000, target_age := 31, current_age := 30,
    monthly_contribution := 100, assumed_annual_return := 12/100, birth_year := none }

/-- Counterexample to claim C2 as stated: with the nonzero (negative)
monthly rate -1/100 and a positive contribution, the projection is the
linear 100 * 12 from the fallback branch, not the annuity formula the
claim asserts for every nonzero rate, because the source guards the
annuity branch with monthly_return > 0 rather than nonzero. -/
theorem c2_counterexample :
    yearsRemaining cfgNegReturn = 1 ∧
    cfgNegReturn.assumed_annual_return / 12 ≠ 0 ∧
    project_future_value 0 cfgNegReturn.monthly_contribution (yearsRemaining cfgNegReturn)
        cfgNegReturn.assumed_annual_return
      ≠ 0 * (1 + cfgNegReturn.assumed_annual_return / 12)
            ^ ((yearsRemaining cfgNegReturn).toNat * 12)
        + cfgNegReturn.monthly_contribution *
          (((1 + cfgNegReturn.assumed_annual_return / 12)
              ^ ((yearsRemaining cfgNegReturn).toNat * 12) - 1)
            / (cfgNegReturn.assumed_annual_return / 12)) ∧
    ∃ p, calculate_progress cfgNegReturn 0 = .ok p ∧
      p.projected_value = round2 (project_future_value 0 cfgNegReturn.monthly_contribution
        (yearsRemaining cfgNegReturn) cfgNegReturn.assumed_annual_return) := by
  have hy : yearsRemaining cfgNegReturn = 1 := by decide
  refine ⟨hy, by norm_num [cfgNegReturn], ?_, ?_⟩
  · rw [hy]
    norm_num [cfgNegReturn, project_future_value]
  · exact ⟨_, calculate_progress_ok _ _ (by norm_num [cfgNegReturn]), rfl⟩

/-- Claim C2 amended: for a positive monthly rate and a nonnegative
contribution the projection computed inside calculate_progress is exactly
the annuity future-value formula at full precision, and the returned
projected_value is that amount rounded to two decimals at the boundary
only.  (For a negative rate the source takes the linear contribution
branch instead; see the counterexample.) -/
theorem c2_amended_positive_rate (cfg : RetirementConfig) (v : ℚ)
    (hy : 0 < yearsRemaining cfg) (hr : 0 < cfg.assumed_annual_return)
    (hc : 0 ≤ cfg.monthly_contribution) :
    project_future_value v cfg.monthly_contribution (yearsRemaining cfg)
        cfg.assumed_annual_return
      = v * (1 + cfg.assumed_annual_return / 12) ^ ((yearsRemaining cfg).toNat * 12)
        + cfg.monthly_contribution *
          (((1 + cfg.assumed_annual_return / 12) ^ ((yearsRemaining cfg).toNat * 12) - 1)
            / (cfg.assumed_annual_return / 12)) ∧
    (cfg.target_amount ≠ 0 → ∃ p, calculate_progress cfg v = .ok p ∧
      p.projected_value
        = round2 (v * (1 + cfg.assumed_annual_return / 12)
              ^ ((yearsRemaining cfg).toNat * 12)
            + cfg.monthly_contribution *
              (((1 + cfg.assumed_annual_return / 12)
                  ^ ((yearsRemaining cfg).toNat * 12) - 1)
                / (cfg.assumed_annual_return / 12)))) := by
  have h1 : project_future_value v cfg.monthly_contribution (yearsRemaining cfg)
      cfg.assumed_annual_return
        = v * (1 + cfg.assumed_annual_return / 12) ^ ((yearsRemaining cfg).toNat * 12)
          + cfg.monthly_contribution *
            (((1 + cfg.assumed_annual_return / 12) ^ ((yearsRemaining cfg).toNat * 12) - 1)
              / (cfg.assumed_annual_return / 12)) := by
    simp only [project_future_value]
    rw [if_neg (not_le.mpr hy)]
    rcases eq_or_lt_of_le hc with hc0 | hcpos
    · rw [show cfg.monthly_contribution = 0 from hc0.symm]
      rw [if_neg (by simp)]
      simp
    · rw [if_pos ⟨div_pos hr (by norm_num), hcpos⟩]
  exact ⟨h1, fun ht => ⟨_, calculate_progress_ok cfg v ht, by rw [h1]⟩⟩

/-- Witness for the amended C2 at a one-year 12 percent config. -/
theorem c2_witness :
    (0 < yearsRemaining cfgPosReturn) ∧ (0 < cfgPosReturn.assumed_annual_return) ∧
    (0 ≤ cfgPosReturn.monthly_contribution) ∧
    project_future_value 500 cfgPosReturn.monthly_contribution (yearsRemaining cfgPosReturn)
        cfgPosReturn.assumed_annual_return
      = 500 * (1 + cfgPosReturn.assumed_annual_return / 12)
            ^ ((yearsRemaining cfgPosReturn).toNat * 12)
        + cfgPosReturn.monthly_contribution *
          (((1 + cfgPosReturn.assumed_annual_return / 12)
              ^ ((yearsRemaining cfgPosReturn).toNat * 12) - 1)
            / (cfgPosReturn.assumed_annual_return / 12)) ∧
    ∃ p, calculate_progress cfgPosReturn 500 = .ok p ∧
      p.projected_value
        = round2 (500 * (1 + cfgPosReturn.assumed_annual_return / 12)
              ^ ((yearsRemaining cfgPosReturn).toNat * 12)
            + cfgPosReturn.monthly_contribution *
              (((1 + cfgPosReturn.assumed_annual_return / 12)
                  ^ ((yearsRemaining cfgPosReturn).toNat * 12) - 1)
                / (cfgPosReturn.assumed_annual_return / 12))) :=
  ⟨by decide, by norm_num [cfgPosReturn], by norm_num [cfgPosReturn],
    (c2_amended_positive_rate cfgPosReturn 500 (by decide) (by norm_num [cfgPosReturn])
      (by norm_num [cfgPosReturn])).1,
    (c2_amended_positive_rate cfgPosReturn 500 (by decide) (by norm_num [cfgPosReturn])
      (by norm_num [cfgPosReturn])).2 (by norm_num [cfgPosReturn])⟩

/-- The snapshot tier for the month span is the period change from the
first of the current month to today. -/
lemma from_snapshots_month (svc : S3Store) (today : Date) (account : String) :
    calculate_period_change_from_snapshots svc today account "month"
      = (calculate_period_change svc today account { today with day := 1 } (some today)).map
          (fun pc => { dollars := pc.change_dollars, percent := pc.change_percent }) := by
  cases h : calculate_period_change svc today account { today with day := 1 } (some today) <;>
    simp [calculate_period_change_from_snapshots, h]

/-- The snapshot tier for the year span is the period change from
January 1 to today. -/
lemma from_snapshots_year (svc : S3Store) (today : Date) (account : String) :
    calculate_period_change_from_snapshots svc today account "year"
      = (calculate_period_change svc today account { today with month := 1, day := 1 }
            (some today)).map
          (fun pc => { dollars := pc.change_dollars, percent := pc.change_percent }) := by
  cases h : calculate_period_change svc today account { today with month := 1, day := 1 }
      (some today) <;>
    simp [calculate_period_change_from_snapshots, h]

/-- Counterexample to claim C7 as stated: with no snapshot service
configured and a client that is not logged in, the holdings tier raises
(RuntimeError from _ensure_logged_in, outside any try block in the
analyzer), so an exception propagates instead of the zero fallback. -/
theorem c7_counterexample :
    calculate_period_change_for_account none
        { logged_in := false, historical := fun _ _ => none } ⟨2024, 5, 15⟩ "A1" "month"
      = .error .runtimeNotLoggedIn :=
  rfl

/-- Claim C7 amended: provided the client is logged in, the analyzer
period change for month or year spans follows the three tiers in order --
snapshot-based change from the first of the month or January 1 to today
when it yields a result, otherwise the holdings-based record when
available, otherwise the zero change -- and returns normally.  When the
client is not logged in and the snapshot tier yields nothing, the
holdings tier propagates a RuntimeError. -/
theorem c7_amended_fallback_chain (svc : Option S3Store) (client : RClient) (today : Date)
    (account span : String) (hlog : client.logged_in = true)
    (hspan : span = "month" ∨ span = "year") :
    calculate_period_change_for_account svc client today account span =
      .ok (Option.elim
            (Option.bind svc (fun s => calculate_period_change s today account
                (if span = "month" then { today with day := 1 }
                 else { today with month := 1, day := 1 }) (some today)))
            (Option.elim (client.historical account span)
              { dollars := 0, percent := 0 }
              (fun h => { dollars := h.change_dollars, percent := h.change_percent }))
            (fun pc => { dollars := pc.change_dollars, percent := pc.change_percent })) := by
  rcases hspan with h | h <;> subst h
  · cases svc with
    | none =>
        cases hh : client.historical account "month" <;>
          simp [calculate_period_change_for_account,
            get_historical_portfolio_for_account, hlog, hh]
    | some s =>
        cases hpc : calculate_period_change s today account { today with day := 1 }
            (some today) with
        | none =>
            cases hh : client.historical account "month" <;>
              simp [calculate_period_change_for_account, from_snapshots_month, hpc,
                get_historical_portfolio_for_account, hlog, hh]
        | some pc =>
            simp [calculate_period_change_for_account, from_snapshots_month, hpc]
  · cases svc with
    | none =>
        cases hh : client.historical account "year" <;>
          simp [calculate_period_change_for_account,
            get_historical_portfolio_for_account, hlog, hh]
    | some s =>
        cases hpc : calculate_period_change s today account { today with month := 1, day := 1 }
            (some today) with
        | none =>
            cases hh : client.historical account "year" <;>
              simp [calculate_period_change_for_account, from_snapshots_year, hpc,
                get_historical_portfolio_for_account, hlog, hh]
        | some pc =>
            simp [calculate_period_change_for_account, from_snapshots_year, hpc]

/-- A logged-in client with no holdings-based data. -/
def clientW : RClient := { logged_in := true, historical := fun _ _ => none }

/-- Witness for the amended C7 on the two-snapshot bucket with a
logged-in client. -/
theorem c7_witness :
    clientW.logged_in = true ∧
    (("month" : String) = "month" ∨ ("month" : String) = "year") ∧
    calculate_period_change_for_account (some storeW) clientW ⟨2024, 1, 15⟩ "A1" "month" =
      .ok (Option.elim
            (Option.bind (some storeW) (fun s => calculate_period_change s ⟨2024, 1, 15⟩ "A1"
                (if ("month" : String) = "month" then { (⟨2024, 1, 15⟩ : Date) with day := 1 }
                 else { (⟨2024, 1, 15⟩ : Date) with month := 1, day := 1 })
                (some ⟨2024, 1, 15⟩)))
            (Option.elim (clientW.historical "A1" "month")
              { dollars := 0, percent := 0 }
              (fun h => { dollars := h.change_dollars, percent := h.change_percent }))
            (fun pc => { dollars := pc.change_dollars, percent := pc.change_percent })) :=
  ⟨rfl, Or.inl rfl,
    c7_amended_fallback_chain (some storeW) clientW ⟨2024, 1, 15⟩ "A1" "month" rfl (Or.inl rfl)⟩

end PortfolioBot
